import Mathlib

set_option maxHeartbeats 1000000
set_option maxRecDepth 8000

/-!
Shallow embedding of the order-tracking repository:
  * src/lib/clusters.py   — the Cluster entity, merge/dedupe engine and store,
  * src/lib/tracking.py   — the Tracking entity and its row import,
  * src/lib/group_site_manager.py — the orchestrator's dispatch and retry loops.

Python sets are modelled as `Finset String`, Python floats as `Rat` (the
claims under study concern parsing success/failure and exact additive
combinations, not floating-point rounding), and fallible code returns
`Except String` carrying the exception message.  Spreadsheet rows are
modelled as lists of string cells (the text the sheet holds); the
`isinstance(x, int)` date branch of tracking.py only fires for integer
cells and is therefore not taken in this model.
-/

/-- Values Python may hold in the `manual_override` slot: the constructor
default `False` (a bool), or — after `from_row` with the column present —
the raw spreadsheet cell.  `merge_with` combines them with Python's `and`. -/
inductive PyVal
  | bool (b : Bool)
  | str (s : String)
deriving DecidableEq, Repr

/-- Python truthiness for the values a `manual_override` slot can hold. -/
def pyTruthy : PyVal → Bool
  | .bool b => b
  | .str s => !(s == "")

/-- Python's `x and y`: returns `x` when `x` is falsy, else `y`. -/
def pyAnd (x y : PyVal) : PyVal :=
  if pyTruthy x then y else x

/-- Python's `max(a, b)` on strings: the second argument is returned only
when it is strictly greater (ties keep the first). -/
def pyMax (a b : String) : String :=
  if a < b then b else a

/-- The Cluster entity of src/lib/clusters.py, with the fields `_initiate`
sets (value view; the aliasing of the mutable default argument is modelled
separately below by `ClusterH`). -/
structure Cluster where
  orders : Finset String
  trackings : Finset String
  group : String
  expected_cost : Rat
  tracked_cost : Rat
  last_ship_date : String
  purchase_orders : Finset String
  adjustment : Rat
  to_email : String
  notes : String
  manual_override : PyVal
  non_reimbursed_trackings : Finset String
deriving DecidableEq

/-- `Cluster.__init__(group)`: `_initiate(set(), set(), group, 0, 0, '0',
set(), 0.0)` with the remaining parameters at their defaults. -/
def Cluster.init (group : String) : Cluster :=
  ⟨∅, ∅, group, 0, 0, "0", ∅, 0, "", "", .bool false, ∅⟩

/-- Note concatenation performed by `Cluster.merge_with`. -/
def mergeNotes (a b : String) : String :=
  if a ≠ "" ∧ b ≠ "" then a ++ ", " ++ b
  else if b ≠ "" then b
  else a

/-- `Cluster.merge_with(self, other)` as a function producing the updated
`self` (the source mutates `self` in place; `group` and `to_email` are not
touched). -/
def Cluster.merge_with (self other : Cluster) : Cluster :=
  { self with
    orders := self.orders ∪ other.orders
    trackings := self.trackings ∪ other.trackings
    expected_cost := self.expected_cost + other.expected_cost
    tracked_cost := self.tracked_cost + other.tracked_cost
    last_ship_date := pyMax self.last_ship_date other.last_ship_date
    purchase_orders := self.purchase_orders ∪ other.purchase_orders
    adjustment := self.adjustment + other.adjustment
    notes := mergeNotes self.notes other.notes
    manual_override := pyAnd self.manual_override other.manual_override
    non_reimbursed_trackings :=
      self.non_reimbursed_trackings ∪ other.non_reimbursed_trackings }

/-- Loop body of `dedupe_clusters`: iterate in order, skip empty groups,
keep a cluster only when its trackings avoid everything claimed so far
(the source appends to a result list; forward structural recursion builds
the same list). -/
def dedupeAux : List Cluster → Finset String → List Cluster
  | [], _ => []
  | c :: rest, seen =>
    if c.group = "" then dedupeAux rest seen
    else if c.trackings ∩ seen = ∅ then c :: dedupeAux rest (seen ∪ c.trackings)
    else dedupeAux rest seen

/-- `dedupe_clusters(clusters)` from src/lib/clusters.py. -/
def dedupe_clusters (clusters : List Cluster) : List Cluster :=
  dedupeAux clusters ∅

/-- Position-by-position record of which input clusters `dedupe_clusters`
keeps (`true`) or drops (`false`), following the same traversal. -/
def dedupeKeptFlags : List Cluster → Finset String → List Bool
  | [], _ => []
  | c :: rest, seen =>
    if c.group = "" then false :: dedupeKeptFlags rest seen
    else if c.trackings ∩ seen = ∅ then true :: dedupeKeptFlags rest (seen ∪ c.trackings)
    else false :: dedupeKeptFlags rest seen

/-- The drive/local fallback of `get_existing_clusters`, local half: a
missing local file yields `[]`, otherwise the unpickled list is deduped. -/
def load_local_clusters : Option (List Cluster) → List Cluster
  | none => []
  | some cs => dedupe_clusters cs

/-- `get_existing_clusters(config)`: the remote mirror's list is returned
as soon as it is truthy (non-`None` and nonempty); only the local-file
fallback re-applies `dedupe_clusters`.  The two backing stores are passed
in as the lists they hold (`none` = absent/unreadable). -/
def get_existing_clusters (from_drive : Option (List Cluster))
    (local_data : Option (List Cluster)) : List Cluster :=
  match from_drive with
  | some l => if l.isEmpty then load_local_clusters local_data else l
  | none => load_local_clusters local_data

/-- The Tracking entity of src/lib/tracking.py (fields in `__init__`
order). -/
structure Tracking where
  tracking_number : String
  group : String
  order_ids : Finset String
  price : Rat
  to_email : String
  url : String
  ship_date : String
  tracked_cost : Rat
  items : String
  merchant : String
  reconcile : Bool
  delivery_date : String
deriving DecidableEq

/-- Match condition of `find_cluster`: same group and overlapping orders. -/
def tMatch (c : Cluster) (t : Tracking) : Prop :=
  c.group = t.group ∧ (c.orders ∩ t.order_ids).Nonempty

instance (c : Cluster) (t : Tracking) : Decidable (tMatch c t) := by
  unfold tMatch; infer_instance

/-- `find_cluster(all_clusters, tracking)` from src/lib/clusters.py. -/
def find_cluster : List Cluster → Tracking → Option Cluster
  | [], _ => none
  | c :: rest, t => if tMatch c t then some c else find_cluster rest t

/-- Index at which `find_cluster` stops (the source mutates the found
object inside the list; the value model updates it at this index). -/
def find_cluster_index : List Cluster → Tracking → Option Nat
  | [], _ => none
  | c :: rest, t =>
    if tMatch c t then some 0 else (find_cluster_index rest t).map (· + 1)

/-- The per-tracking mutation of `update_clusters`: union in the order
ids, add the tracking number, advance the ship date, overwrite the
email. -/
def ingest_into (c : Cluster) (t : Tracking) : Cluster :=
  { c with
    orders := c.orders ∪ t.order_ids
    trackings := insert t.tracking_number c.trackings
    last_ship_date := pyMax c.last_ship_date t.ship_date
    to_email := t.to_email }

/-- One iteration of `update_clusters`' loop: find the cluster (same
group, overlapping orders), else append a fresh `Cluster(group)`, then
ingest the tracking into it. -/
def update_clusters_step (all_clusters : List Cluster) (t : Tracking) : List Cluster :=
  match find_cluster_index all_clusters t with
  | some i =>
    -- the index returned always lies inside the list, so the default is unused
    all_clusters.set i (ingest_into (all_clusters.getD i (Cluster.init t.group)) t)
  | none => all_clusters ++ [ingest_into (Cluster.init t.group) t]

/-- `update_clusters(all_clusters, trackings)` from src/lib/clusters.py. -/
def update_clusters (all_clusters : List Cluster) (trackings : List Tracking) : List Cluster :=
  trackings.foldl update_clusters_step all_clusters

/-- Match condition of `find_by_purchase_orders`' candidate scan. -/
def poMatch (cand c : Cluster) : Prop :=
  cand.group = c.group ∧ (cand.purchase_orders ∩ c.purchase_orders).Nonempty

instance (cand c : Cluster) : Decidable (poMatch cand c) := by
  unfold poMatch; infer_instance

/-- First candidate (by index) in the same group sharing a purchase
order. -/
def poMatchIndex (c : Cluster) : List Cluster → Option Nat
  | [] => none
  | cand :: rest =>
    if poMatch cand c then some 0 else (poMatchIndex c rest).map (· + 1)

/-- `find_by_purchase_orders(cluster, all_clusters)`: `None` when the
query cluster has no purchase orders, else the first match. -/
def find_by_purchase_orders : Cluster → List Cluster → Option Cluster
  | c, l =>
    if c.purchase_orders = ∅ then none
    else match l with
      | [] => none
      | cand :: rest =>
        if poMatch cand c then some cand else find_by_purchase_orders c rest

/-- Index form of `find_by_purchase_orders`, used to update the merge
target inside the result list. -/
def find_by_purchase_orders_index (c : Cluster) (l : List Cluster) : Option Nat :=
  if c.purchase_orders = ∅ then none else poMatchIndex c l

/-- Loop body of `run_merge_iteration`: fold each cluster into the result,
merging into the first purchase-order match or appending. -/
def run_merge_iteration_go : List Cluster → List Cluster → List Cluster
  | result, [] => result
  | result, c :: rest =>
    match find_by_purchase_orders_index c result with
    | some i =>
      -- the index is always in bounds; the default is unused
      run_merge_iteration_go (result.set i ((result.getD i c).merge_with c)) rest
    | none => run_merge_iteration_go (result ++ [c]) rest

/-- `run_merge_iteration(clusters)` from src/lib/clusters.py. -/
def run_merge_iteration (clusters : List Cluster) : List Cluster :=
  run_merge_iteration_go [] clusters

theorem run_merge_iteration_go_length_le (l : List Cluster) :
    ∀ result, (run_merge_iteration_go result l).length ≤ result.length + l.length := by
  induction l with
  | nil => intro result; simp [run_merge_iteration_go]
  | cons c rest ih =>
    intro result
    simp only [run_merge_iteration_go]
    cases h : find_by_purchase_orders_index c result with
    | some i =>
      simp only [h]
      have := ih (result.set i ((result.getD i c).merge_with c))
      simp only [List.length_set] at this
      simp only [List.length_cons]
      omega
    | none =>
      simp only [h]
      have := ih (result ++ [c])
      simp only [List.length_append, List.length_singleton] at this
      simp only [List.length_cons]
      omega

theorem run_merge_iteration_length_le (l : List Cluster) :
    (run_merge_iteration l).length ≤ l.length := by
  have := run_merge_iteration_go_length_le l []
  simpa [run_merge_iteration] using this

theorem run_merge_iteration_go_stable (l : List Cluster) :
    ∀ result, (run_merge_iteration_go result l).length = result.length + l.length →
      run_merge_iteration_go result l = result ++ l := by
  induction l with
  | nil => intro result _; simp [run_merge_iteration_go]
  | cons c rest ih =>
    intro result hlen
    simp only [run_merge_iteration_go] at hlen ⊢
    cases h : find_by_purchase_orders_index c result with
    | some i =>
      simp only [h] at hlen
      have hle := run_merge_iteration_go_length_le rest
        (result.set i ((result.getD i c).merge_with c))
      simp only [List.length_set, List.length_cons] at hle hlen
      omega
    | none =>
      simp only [h]
      simp only [h] at hlen
      have := ih (result ++ [c]) (by
        simp only [List.length_append, List.length_singleton, List.length_cons,
          List.length_nil] at hlen ⊢
        omega)
      rw [this]
      simp

/-- Result of one merge pass that did not shrink the list: the pass made
no merges at all, so the list is returned unchanged. -/
theorem run_merge_iteration_stable (l : List Cluster)
    (h : (run_merge_iteration l).length = l.length) : run_merge_iteration l = l := by
  have := run_merge_iteration_go_stable l [] (by simpa [run_merge_iteration] using h)
  simpa [run_merge_iteration] using this

/-- `merge_by_purchase_orders(clusters)`: run merge passes until one
leaves the cluster count unchanged, returning that pass's output. -/
def merge_by_purchase_orders (clusters : List Cluster) : List Cluster :=
  let next := run_merge_iteration clusters
  if h : next.length = clusters.length then next
  else merge_by_purchase_orders next
termination_by clusters.length
decreasing_by
  have := run_merge_iteration_length_le clusters
  simp only [next] at h
  omega

/-! ### Spreadsheet row import (clusters.py `from_row`, tracking.py `from_row`) -/

/-- Numeric value of a digit string, most significant digit first. -/
def digitsVal (l : List Char) : Nat :=
  l.foldl (fun a c => a * 10 + (c.toNat - 48)) 0

/-- Exponent suffix of a float literal: nothing, or `e`/`E`, an optional
sign, and a nonempty run of digits. -/
def parseExpSuffix (base : Rat) : List Char → Option Rat
  | [] => some base
  | c :: r =>
    if c = 'e' ∨ c = 'E' then
      match r with
      | '+' :: d =>
        if d ≠ [] ∧ d.all Char.isDigit then some (base * 10 ^ digitsVal d) else none
      | '-' :: d =>
        if d ≠ [] ∧ d.all Char.isDigit then some (base / 10 ^ digitsVal d) else none
      | d =>
        if d ≠ [] ∧ d.all Char.isDigit then some (base * 10 ^ digitsVal d) else none
    else none

/-- Unsigned float literal: integer digits, optional `.` and fraction
digits (at least one digit overall), optional exponent. -/
def parseUnsignedFloat (l : List Char) : Option Rat :=
  let intPart := l.takeWhile Char.isDigit
  let rest := l.dropWhile Char.isDigit
  match rest with
  | '.' :: r2 =>
    let fracPart := r2.takeWhile Char.isDigit
    let r3 := r2.dropWhile Char.isDigit
    if intPart = [] ∧ fracPart = [] then none
    else parseExpSuffix
      ((digitsVal intPart : Rat) + (digitsVal fracPart : Rat) / 10 ^ fracPart.length) r3
  | r =>
    if intPart = [] then none
    else parseExpSuffix (digitsVal intPart : Rat) r

/-- Surrounding-whitespace strip performed by Python `float()` on string
input, on the character list. -/
def stripWhitespace (s : String) : List Char :=
  ((s.toList.dropWhile Char.isWhitespace).reverse.dropWhile Char.isWhitespace).reverse

/-- Model of Python `float()` applied to a string: surrounding whitespace
is stripped, then an optional sign and a decimal literal with optional
fraction and exponent.  The `inf`/`nan` spellings and digit underscores
Python also accepts are outside this model. -/
def parsePythonFloat (s : String) : Option Rat :=
  match stripWhitespace s with
  | '+' :: r => parseUnsignedFloat r
  | '-' :: r => (parseUnsignedFloat r).map Neg.neg
  | r => parseUnsignedFloat r

/-- Python `float()` as a fallible computation. -/
def pyFloatE (s : String) : Except String Rat :=
  match parsePythonFloat s with
  | some q => .ok q
  | none => .error ("ValueError: could not convert string to float: " ++ s)

/-- The `float(x) if x else 0.0` idiom: an empty string yields 0.0
without calling `float()`. -/
def pyFloatGuard (s : String) : Except String Rat :=
  if s = "" then pure 0 else pyFloatE s

/-- The `.replace(',', '').replace('$', '')` preprocessing tracking.py
applies to the Price column before `float()`: replacing a single
character with the empty string deletes every occurrence of it. -/
def pyStripMoney (s : String) : String :=
  ⟨(s.toList.filter (· ≠ ',')).filter (· ≠ '$')⟩

/-- First index of a column name in the header (`header.index(name)` /
`name in header`). -/
def headerIndex : List String → String → Option Nat
  | [], _ => none
  | h :: rest, name =>
    if h = name then some 0 else (headerIndex rest name).map (· + 1)

/-- Cell of an optional column: `ok none` when the column is absent from
the header, the cell when present, an IndexError when the row is shorter
than the header position. -/
def getCell (header row : List String) (name : String) : Except String (Option String) :=
  match headerIndex header name with
  | none => .ok none
  | some i =>
    match row.get? i with
    | some v => .ok (some v)
    | none => .error "IndexError: list index out of range"

/-- Cell of a mandatory column: `header.index(name)` raises when the
column is absent. -/
def getRequired (header row : List String) (name : String) : Except String String :=
  match headerIndex header name with
  | none => .error ("ValueError: " ++ name ++ " is not in list")
  | some i =>
    match row.get? i with
    | some v => .ok v
    | none => .error "IndexError: list index out of range"

namespace Clusters

/-- Column parsed as `set(str(cell).split(','))` when present (so an empty
cell yields the singleton `{""}`), empty set when absent: the Orders and
Trackings columns. -/
def parseSplitSet (header row : List String) (name : String) :
    Except String (Finset String) := do
  match ← getCell header row name with
  | some s => pure (s.splitOn ",").toFinset
  | none => pure ∅

/-- Column parsed as `set(cell.split(','))` only when the cell is a
nonempty string: the Non-Reimbursed Trackings and POs columns. -/
def parseGuardedSet (header row : List String) (name : String) :
    Except String (Finset String) := do
  match ← getCell header row name with
  | some s => if s = "" then pure ∅ else pure (s.splitOn ",").toFinset
  | none => pure ∅

/-- Column parsed as `float(cell)` with no guard: the Amount Billed
column (an empty or malformed cell raises). -/
def parseStrictFloat (header row : List String) (name : String) :
    Except String Rat := do
  match ← getCell header row name with
  | some s => pyFloatE s
  | none => pure 0

/-- Column parsed as `float(cell) if cell else 0.0`: the Amount
Reimbursed and Manual Cost Adjustment columns. -/
def parseGuardedFloat (header row : List String) (name : String) :
    Except String Rat := do
  match ← getCell header row name with
  | some s => pyFloatGuard s
  | none => pure 0

/-- Column stored as the raw cell with a default when absent: Last Ship
Date ("0"), Group (""), To Email (""), Notes (""). -/
def parseStrCol (header row : List String) (name dflt : String) :
    Except String String := do
  match ← getCell header row name with
  | some s => pure s
  | none => pure dflt

/-- Manual Override column: the raw cell when present, `False` when
absent. -/
def parseOverrideCol (header row : List String) : Except String PyVal := do
  match ← getCell header row "Manual Override" with
  | some s => pure (.str s)
  | none => pure (.bool false)

/-- `from_row(header, row)` of src/lib/clusters.py, column by column in
source order, ending in `_initiate` with every field supplied. -/
def from_row (header row : List String) : Except String Cluster := do
  let orders ← parseSplitSet header row "Orders"
  let trackings ← parseSplitSet header row "Trackings"
  let expected_cost ← parseStrictFloat header row "Amount Billed"
  let tracked_cost ← parseGuardedFloat header row "Amount Reimbursed"
  let non_reimbursed_trackings ← parseGuardedSet header row "Non-Reimbursed Trackings"
  let last_ship_date ← parseStrCol header row "Last Ship Date" "0"
  let purchase_orders ← parseGuardedSet header row "POs"
  let group ← parseStrCol header row "Group" ""
  let adjustment ← parseGuardedFloat header row "Manual Cost Adjustment"
  let manual_override ← parseOverrideCol header row
  let to_email ← parseStrCol header row "To Email" ""
  let notes ← parseStrCol header row "Notes" ""
  pure ⟨orders, trackings, group, expected_cost, tracked_cost, last_ship_date,
    purchase_orders, adjustment, to_email, notes, manual_override,
    non_reimbursed_trackings⟩

end Clusters

namespace Tracking

/-- `from_row(header, row)` of src/lib/tracking.py, in source order.  The
Tracking Number, Order Number(s), To Email, Ship Date and Group columns
are fetched with `header.index(...)` unconditionally; only Price,
Est. Delivery Date, Amount Reimbursed, Items and Merchant are guarded by
`in header`. -/
def from_row (header row : List String) : Except String Tracking := do
  let tracking ← getRequired header row "Tracking Number"
  let ordersStr ← getRequired header row "Order Number(s)"
  let order_ids := ((ordersStr.splitOn ",").map String.trim).toFinset
  let priceCell ← getCell header row "Price"
  let price_str := pyStripMoney (priceCell.getD "")
  let price ← pyFloatGuard price_str
  let to_email ← getRequired header row "To Email"
  let ship_date ← getRequired header row "Ship Date"
  let deliveryCell ← getCell header row "Est. Delivery Date"
  let delivery_date := deliveryCell.getD ""
  let group ← getRequired header row "Group"
  let reimbCell ← getCell header row "Amount Reimbursed"
  let tracked_cost_str := reimbCell.getD ""
  let tracked_cost ← pyFloatGuard tracked_cost_str
  let itemsCell ← getCell header row "Items"
  let merchantCell ← getCell header row "Merchant"
  pure ⟨tracking, group, order_ids, price, to_email, "", ship_date, tracked_cost,
    itemsCell.getD "", merchantCell.getD "", true, delivery_date⟩

end Tracking

/-! ### Orchestrator dispatch and retry (src/lib/group_site_manager.py)

The per-portal adapter bodies perform browser/network I/O; they are
abstracted as oracles (`Nat → ...` for retried calls, indexed by the
attempt number, since each re-invocation may behave differently).  The
dispatch structure, the `return dict(), dict()` fall-through, the
`Unknown group` raise and both retry loops are modelled from the
source. -/

abbrev TrackingsCostMap := List (List String × Rat)

abbrev PoCostMap := List (String × Rat)

/-- Source constant `MAX_UPLOAD_ATTEMPTS`. -/
def MAX_UPLOAD_ATTEMPTS : Nat := 10

/-- The shared retry shape: run the attempts in order, return the first
success, and after the budget is spent fail with "Exceeded retry limit"
carrying the last exception.  The returned `Nat` counts attempts made. -/
def retryLoop (attempt : Nat → Except String α) :
    Nat → Nat → Option String → Except (String × Option String) α × Nat
  | 0, used, last => (.error ("Exceeded retry limit", last), used)
  | n + 1, used, last =>
    match attempt used with
    | .ok a => (.ok a, used + 1)
    | .error e => retryLoop attempt n (used + 1) (some e)

/-- `GroupSiteManager.get_new_tracking_pos_costs_maps`: dispatch on the
group identifier over the closed set {bfmr, melul portals, usa, yrcw};
any other group falls through to `return dict(), dict()`. -/
def get_new_tracking_pos_costs_maps (melul_portal_groups : List String)
    (adapter : String → Except String (TrackingsCostMap × PoCostMap))
    (group : String) : Except String (TrackingsCostMap × PoCostMap) :=
  if group = "bfmr" then adapter group
  else if group ∈ melul_portal_groups then adapter group
  else if group = "usa" then adapter group
  else if group = "yrcw" then adapter group
  else .ok ([], [])

/-- `GroupSiteManager.get_new_tracking_pos_costs_maps_with_retry`: five
attempts of the underlying fetch, then
`raise Exception("Exceeded retry limit", last_exc)`. -/
def get_new_tracking_pos_costs_maps_with_retry
    (fetch : Nat → Except String (TrackingsCostMap × PoCostMap)) :
    Except (String × Option String) (TrackingsCostMap × PoCostMap) × Nat :=
  retryLoop fetch 5 0 none

/-- Body of one `_upload_to_group` attempt: dispatch on the group
identifier; an unknown group raises `Exception("Unknown group: " + group)`
inside the `try`, so the surrounding loop treats it like any other
failure. -/
def upload_attempt (melul_portal_groups : List String)
    (uploader : String → Except String Unit) (group : String) : Except String Unit :=
  if group ∈ melul_portal_groups then uploader group
  else if group = "usa" then uploader group
  else if group = "yrcw" then uploader group
  else if group = "bfmr" then uploader group
  else if group = "oaks" then uploader group
  else .error ("Unknown group: " ++ group)

/-- `GroupSiteManager._upload_to_group`: `MAX_UPLOAD_ATTEMPTS` (10)
attempts, then `raise Exception("Exceeded retry limit") from last_ex`. -/
def upload_to_group (melul_portal_groups : List String)
    (uploader : Nat → String → Except String Unit) (group : String) :
    Except (String × Option String) Unit × Nat :=
  retryLoop (fun i => upload_attempt melul_portal_groups (uploader i) group)
    MAX_UPLOAD_ATTEMPTS 0 none

/-! ### Heap view of the shared mutable default set (claim about
`Cluster._initiate`'s `non_reimbursed_trackings=set()`)

Python evaluates a default argument once; every `Cluster(group)` call
reaches `_initiate` without a `non_reimbursed_trackings` argument, so all
such clusters alias one set object.  `NRTRef` is a reference that is
either that shared object or an owned set (as passed explicitly by
`from_row`/`__setstate__`); `DefaultStore` holds the shared object's
contents.  `__init__` passes fresh sets for `orders`, `trackings` and
`purchase_orders`, so only this field needs the reference view. -/

inductive NRTRef
  | sharedDefault
  | own (s : Finset String)
deriving DecidableEq

/-- Contents of `_initiate`'s default `set()` object. -/
structure DefaultStore where
  nrtDefault : Finset String
deriving DecidableEq

/-- Dereference a `non_reimbursed_trackings` field. -/
def nrtValue (st : DefaultStore) : NRTRef → Finset String
  | .sharedDefault => st.nrtDefault
  | .own s => s

/-- Cluster with the `non_reimbursed_trackings` field kept as a
reference. -/
structure ClusterH where
  orders : Finset String
  trackings : Finset String
  group : String
  expected_cost : Rat
  tracked_cost : Rat
  last_ship_date : String
  purchase_orders : Finset String
  adjustment : Rat
  to_email : String
  notes : String
  manual_override : PyVal
  non_reimbursed_trackings : NRTRef
deriving DecidableEq

/-- `Cluster.__init__(group)` in the heap view: fresh empty sets for the
explicitly passed fields, the shared default object for
`non_reimbursed_trackings`. -/
def ClusterH.init (group : String) : ClusterH :=
  ⟨∅, ∅, group, 0, 0, "0", ∅, 0, "", "", .bool false, .sharedDefault⟩

/-- `Cluster.merge_with` in the heap view: `self.non_reimbursed_trackings
.update(other.non_reimbursed_trackings)` writes through `self`'s
reference, mutating the shared default object when `self` holds it. -/
def ClusterH.merge_with (st : DefaultStore) (self other : ClusterH) :
    DefaultStore × ClusterH :=
  let otherNrt := nrtValue st other.non_reimbursed_trackings
  let merged : ClusterH :=
    { self with
      orders := self.orders ∪ other.orders
      trackings := self.trackings ∪ other.trackings
      expected_cost := self.expected_cost + other.expected_cost
      tracked_cost := self.tracked_cost + other.tracked_cost
      last_ship_date := pyMax self.last_ship_date other.last_ship_date
      purchase_orders := self.purchase_orders ∪ other.purchase_orders
      adjustment := self.adjustment + other.adjustment
      notes := mergeNotes self.notes other.notes
      manual_override := pyAnd self.manual_override other.manual_override }
  match self.non_reimbursed_trackings with
  | .sharedDefault => (⟨st.nrtDefault ∪ otherNrt⟩, merged)
  | .own s => (st, { merged with non_reimbursed_trackings := .own (s ∪ otherNrt) })

/-! ### Engine lemmas: merge fixpoint -/

theorem run_merge_iteration_singleton (c : Cluster) : run_merge_iteration [c] = [c] := by
  simp [run_merge_iteration, run_merge_iteration_go, find_by_purchase_orders_index,
    poMatchIndex, ite_self]

theorem mbpo_of_stable (l : List Cluster) (h : run_merge_iteration l = l) :
    merge_by_purchase_orders l = l := by
  rw [merge_by_purchase_orders]
  simp [h]

theorem mbpo_unfold_ne (l : List Cluster) (h : (run_merge_iteration l).length ≠ l.length) :
    merge_by_purchase_orders l = merge_by_purchase_orders (run_merge_iteration l) := by
  conv_lhs => rw [merge_by_purchase_orders]
  simp [dif_neg h]

/-- Output of the merge fixpoint is a fixed point of one merge pass. -/
theorem run_merge_iteration_mbpo (l : List Cluster) :
    run_merge_iteration (merge_by_purchase_orders l) = merge_by_purchase_orders l := by
  generalize hn : l.length = n
  induction n using Nat.strong_induction_on generalizing l with
  | _ n ih =>
    by_cases h : (run_merge_iteration l).length = l.length
    · have hst := run_merge_iteration_stable l h
      rw [mbpo_of_stable l hst, hst]
    · rw [mbpo_unfold_ne l h]
      subst hn
      exact ih (run_merge_iteration l).length
        (lt_of_le_of_ne (run_merge_iteration_length_le l) h)
        (run_merge_iteration l) rfl

/-! ### Engine lemmas: dedupe -/

theorem dedupeAux_group_ne (l : List Cluster) :
    ∀ seen c, c ∈ dedupeAux l seen → c.group ≠ "" := by
  induction l with
  | nil => intro seen c hc; simp [dedupeAux] at hc
  | cons a rest ih =>
    intro seen c hc
    by_cases hg : a.group = ""
    · rw [dedupeAux, if_pos hg] at hc
      exact ih seen c hc
    · by_cases ht : a.trackings ∩ seen = ∅
      · rw [dedupeAux, if_neg hg, if_pos ht] at hc
        rcases List.mem_cons.mp hc with h | h
        · exact h ▸ hg
        · exact ih _ c h
      · rw [dedupeAux, if_neg hg, if_neg ht] at hc
        exact ih seen c hc

theorem dedupeAux_inter_seen (l : List Cluster) :
    ∀ seen c, c ∈ dedupeAux l seen → c.trackings ∩ seen = ∅ := by
  induction l with
  | nil => intro seen c hc; simp [dedupeAux] at hc
  | cons a rest ih =>
    intro seen c hc
    by_cases hg : a.group = ""
    · rw [dedupeAux, if_pos hg] at hc
      exact ih seen c hc
    · by_cases ht : a.trackings ∩ seen = ∅
      · rw [dedupeAux, if_neg hg, if_pos ht] at hc
        rcases List.mem_cons.mp hc with h | h
        · exact h ▸ ht
        · have h2 := ih _ c h
          rw [Finset.inter_union_distrib_left] at h2
          exact (Finset.union_eq_empty.mp h2).1
      · rw [dedupeAux, if_neg hg, if_neg ht] at hc
        exact ih seen c hc

theorem dedupeAux_pairwise (l : List Cluster) :
    ∀ seen, List.Pairwise (fun a b => a.trackings ∩ b.trackings = ∅) (dedupeAux l seen) := by
  induction l with
  | nil => intro seen; simp [dedupeAux]
  | cons a rest ih =>
    intro seen
    by_cases hg : a.group = ""
    · rw [dedupeAux, if_pos hg]; exact ih seen
    · by_cases ht : a.trackings ∩ seen = ∅
      · rw [dedupeAux, if_neg hg, if_pos ht]
        refine List.Pairwise.cons ?_ (ih _)
        intro b hb
        have h2 := dedupeAux_inter_seen rest _ b hb
        rw [Finset.inter_union_distrib_left] at h2
        have h3 := (Finset.union_eq_empty.mp h2).2
        rwa [Finset.inter_comm] at h3
      · rw [dedupeAux, if_neg hg, if_neg ht]; exact ih seen

theorem dedupeKeptFlags_length (l : List Cluster) :
    ∀ seen, (dedupeKeptFlags l seen).length = l.length := by
  induction l with
  | nil => intro seen; simp [dedupeKeptFlags]
  | cons a rest ih =>
    intro seen
    by_cases hg : a.group = ""
    · rw [dedupeKeptFlags, if_pos hg]; simp [ih]
    · by_cases ht : a.trackings ∩ seen = ∅
      · rw [dedupeKeptFlags, if_neg hg, if_pos ht]; simp [ih]
      · rw [dedupeKeptFlags, if_neg hg, if_neg ht]; simp [ih]

theorem dedupeKeptFlags_true (l : List Cluster) :
    ∀ seen j cj, l.get? j = some cj →
      (dedupeKeptFlags l seen).get? j = some true →
      cj.group ≠ "" ∧ cj.trackings ∩ seen = ∅ := by
  induction l with
  | nil => intro seen j cj hg _; simp at hg
  | cons a rest ih =>
    intro seen j cj hgj hfj
    by_cases hg : a.group = ""
    · rw [dedupeKeptFlags, if_pos hg] at hfj
      cases j with
      | zero => simp at hfj
      | succ j' =>
        rw [List.get?_cons_succ] at hgj hfj
        exact ih seen j' cj hgj hfj
    · by_cases ht : a.trackings ∩ seen = ∅
      · rw [dedupeKeptFlags, if_neg hg, if_pos ht] at hfj
        cases j with
        | zero =>
          rw [List.get?_cons_zero, Option.some_inj] at hgj
          exact hgj ▸ ⟨hg, ht⟩
        | succ j' =>
          rw [List.get?_cons_succ] at hgj hfj
          have h2 := ih _ j' cj hgj hfj
          refine ⟨h2.1, ?_⟩
          have h3 := h2.2
          rw [Finset.inter_union_distrib_left] at h3
          exact (Finset.union_eq_empty.mp h3).1
      · rw [dedupeKeptFlags, if_neg hg, if_neg ht] at hfj
        cases j with
        | zero => simp at hfj
        | succ j' =>
          rw [List.get?_cons_succ] at hgj hfj
          exact ih seen j' cj hgj hfj

theorem dedupeKeptFlags_overlap (l : List Cluster) :
    ∀ seen i j ci cj, i < j →
      l.get? i = some ci → l.get? j = some cj →
      (ci.trackings ∩ cj.trackings).Nonempty →
      (dedupeKeptFlags l seen).get? i = some true →
      (dedupeKeptFlags l seen).get? j = some false := by
  induction l with
  | nil => intro seen i j ci cj _ hgi _ _ _; simp at hgi
  | cons a rest ih =>
    intro seen i j ci cj hij hgi hgj hshare hfi
    cases j with
    | zero => omega
    | succ j' =>
      rw [List.get?_cons_succ] at hgj
      cases i with
      | zero =>
        rw [List.get?_cons_zero, Option.some_inj] at hgi
        subst hgi
        by_cases hg : a.group = ""
        · rw [dedupeKeptFlags, if_pos hg, List.get?_cons_zero] at hfi
          simp at hfi
        · by_cases ht : a.trackings ∩ seen = ∅
          · rw [dedupeKeptFlags, if_neg hg, if_pos ht] at hfi ⊢
            rw [List.get?_cons_succ]
            -- the flag at j' exists, and cannot be true
            have hlen := dedupeKeptFlags_length rest (seen ∪ a.trackings)
            have hlt : j' < rest.length := (List.get?_eq_some.mp hgj).1
            have hl2 : j' < (dedupeKeptFlags rest (seen ∪ a.trackings)).length := by
              rw [hlen]; exact hlt
            rcases List.get?_eq_get hl2 with hfl
            cases hb : (dedupeKeptFlags rest (seen ∪ a.trackings)).get ⟨j', hl2⟩ with
            | true =>
              exfalso
              have h2 := dedupeKeptFlags_true rest (seen ∪ a.trackings) j' cj hgj
                (by rw [hfl, hb])
              have h3 := h2.2
              rw [Finset.inter_union_distrib_left] at h3
              have h4 := (Finset.union_eq_empty.mp h3).2
              rw [Finset.inter_comm] at h4
              rw [h4] at hshare
              exact Finset.not_nonempty_empty hshare
            | false => rw [hfl, hb]
          · rw [dedupeKeptFlags, if_neg hg, if_neg ht, List.get?_cons_zero] at hfi
            simp at hfi
      | succ i' =>
        rw [List.get?_cons_succ] at hgi
        by_cases hg : a.group = ""
        · rw [dedupeKeptFlags, if_pos hg, List.get?_cons_succ] at hfi ⊢
          exact ih seen i' j' ci cj (by omega) hgi hgj hshare hfi
        · by_cases ht : a.trackings ∩ seen = ∅
          · rw [dedupeKeptFlags, if_neg hg, if_pos ht, List.get?_cons_succ] at hfi ⊢
            exact ih _ i' j' ci cj (by omega) hgi hgj hshare hfi
          · rw [dedupeKeptFlags, if_neg hg, if_neg ht, List.get?_cons_succ] at hfi ⊢
            exact ih seen i' j' ci cj (by omega) hgi hgj hshare hfi

theorem dedupeKeptFlags_mem (l : List Cluster) :
    ∀ seen i ci, l.get? i = some ci →
      (dedupeKeptFlags l seen).get? i = some true →
      ci ∈ dedupeAux l seen := by
  induction l with
  | nil => intro seen i ci hgi _; simp at hgi
  | cons a rest ih =>
    intro seen i ci hgi hfi
    by_cases hg : a.group = ""
    · rw [dedupeKeptFlags, if_pos hg] at hfi
      rw [dedupeAux, if_pos hg]
      cases i with
      | zero => simp at hfi
      | succ i' =>
        rw [List.get?_cons_succ] at hgi hfi
        exact ih seen i' ci hgi hfi
    · by_cases ht : a.trackings ∩ seen = ∅
      · rw [dedupeKeptFlags, if_neg hg, if_pos ht] at hfi
        rw [dedupeAux, if_neg hg, if_pos ht]
        cases i with
        | zero =>
          rw [List.get?_cons_zero, Option.some_inj] at hgi
          exact hgi ▸ List.mem_cons_self _ _
        | succ i' =>
          rw [List.get?_cons_succ] at hgi hfi
          exact List.mem_cons_of_mem _ (ih _ i' ci hgi hfi)
      · rw [dedupeKeptFlags, if_neg hg, if_neg ht] at hfi
        rw [dedupeAux, if_neg hg, if_neg ht]
        cases i with
        | zero => simp at hfi
        | succ i' =>
          rw [List.get?_cons_succ] at hgi hfi
          exact ih seen i' ci hgi hfi

/-! ### Engine lemmas: find_cluster and single-pass merge steps -/

theorem find_cluster_index_none_iff (t : Tracking) :
    ∀ l : List Cluster, find_cluster_index l t = none ↔ ∀ c ∈ l, ¬ tMatch c t := by
  intro l
  induction l with
  | nil => simp [find_cluster_index]
  | cons a rest ih =>
    by_cases h : tMatch a t
    · rw [find_cluster_index, if_pos h]
      simp [h]
    · rw [find_cluster_index, if_neg h]
      rw [Option.map_eq_none', ih]
      constructor
      · intro hall c hc
        rcases List.mem_cons.mp hc with rfl | hc'
        · exact h
        · exact hall c hc'
      · intro hall c hc
        exact hall c (List.mem_cons_of_mem _ hc)

theorem find_cluster_index_spec (t : Tracking) :
    ∀ (l : List Cluster) (i : Nat), find_cluster_index l t = some i →
      ∃ h : i < l.length, tMatch (l.get ⟨i, h⟩) t ∧
        find_cluster l t = some (l.get ⟨i, h⟩) := by
  intro l
  induction l with
  | nil => intro i h; simp [find_cluster_index] at h
  | cons a rest ih =>
    intro i hi
    by_cases h : tMatch a t
    · rw [find_cluster_index, if_pos h, Option.some_inj] at hi
      subst hi
      exact ⟨by simp, by simpa using h, by rw [find_cluster, if_pos h]; simp⟩
    · rw [find_cluster_index, if_neg h] at hi
      rcases Option.map_eq_some'.mp hi with ⟨i', hi', rfl⟩
      rcases ih i' hi' with ⟨hlt, hm, hfc⟩
      refine ⟨by simp; omega, ?_, ?_⟩
      · simpa using hm
      · rw [find_cluster, if_neg h, hfc]
        congr 1

theorem find_cluster_index_isSome (l : List Cluster) (t : Tracking)
    (h : ∃ c ∈ l, tMatch c t) : ∃ i, find_cluster_index l t = some i := by
  cases hi : find_cluster_index l t with
  | some i => exact ⟨i, rfl⟩
  | none =>
    obtain ⟨c, hc, hm⟩ := h
    exact absurd hm (((find_cluster_index_none_iff t l).mp hi) c hc)

theorem poMatchIndex_cons_pos {cand c : Cluster} (rest : List Cluster) (h : poMatch cand c) :
    poMatchIndex c (cand :: rest) = some 0 := by
  rw [poMatchIndex, if_pos h]

theorem poMatchIndex_cons_neg {cand c : Cluster} (rest : List Cluster) (h : ¬ poMatch cand c) :
    poMatchIndex c (cand :: rest) = (poMatchIndex c rest).map (· + 1) := by
  rw [poMatchIndex, if_neg h]

theorem fbpo_index_nil (c : Cluster) : find_by_purchase_orders_index c [] = none := by
  simp [find_by_purchase_orders_index, poMatchIndex, ite_self]

theorem fbpo_index_of_ne {c : Cluster} (h : c.purchase_orders ≠ ∅) (l : List Cluster) :
    find_by_purchase_orders_index c l = poMatchIndex c l := by
  rw [find_by_purchase_orders_index, if_neg h]

theorem run_go_cons_some (result : List Cluster) (c : Cluster) (rest : List Cluster) (i : Nat)
    (h : find_by_purchase_orders_index c result = some i) :
    run_merge_iteration_go result (c :: rest) =
      run_merge_iteration_go (result.set i ((result.getD i c).merge_with c)) rest := by
  simp only [run_merge_iteration_go, h]

theorem run_go_cons_none (result : List Cluster) (c : Cluster) (rest : List Cluster)
    (h : find_by_purchase_orders_index c result = none) :
    run_merge_iteration_go result (c :: rest) = run_merge_iteration_go (result ++ [c]) rest := by
  simp only [run_merge_iteration_go, h]

/-! ### Claim theorems: engine (C6, C7, C8, C9) -/

/-- C6: for clusters A, B, C of one group with purchase-order sets {po1},
{po1, po2}, {po2} (po1 ≠ po2), `merge_by_purchase_orders` on each of the
six input orders returns exactly one cluster, the fold of `merge_with`
over the three in the order the fixpoint merges them. -/
theorem c6_transitive_merge_chain (A B C : Cluster) (po1 po2 : String)
    (hgAB : A.group = B.group) (hgBC : B.group = C.group)
    (hA : A.purchase_orders = {po1}) (hB : B.purchase_orders = {po1, po2})
    (hC : C.purchase_orders = {po2}) (hne : po1 ≠ po2) :
    merge_by_purchase_orders [A, B, C] = [(A.merge_with B).merge_with C] ∧
    merge_by_purchase_orders [A, C, B] = [(A.merge_with B).merge_with C] ∧
    merge_by_purchase_orders [B, A, C] = [(B.merge_with A).merge_with C] ∧
    merge_by_purchase_orders [B, C, A] = [(B.merge_with C).merge_with A] ∧
    merge_by_purchase_orders [C, A, B] = [(C.merge_with B).merge_with A] ∧
    merge_by_purchase_orders [C, B, A] = [(C.merge_with B).merge_with A] := by
  have hApos : A.purchase_orders ≠ ∅ := by
    rw [hA]; exact Finset.singleton_ne_empty po1
  have hBpos : B.purchase_orders ≠ ∅ := by
    rw [hB]; exact Finset.insert_ne_empty po1 {po2}
  have hCpos : C.purchase_orders ≠ ∅ := by
    rw [hC]; exact Finset.singleton_ne_empty po2
  have pmAB : poMatch A B := ⟨hgAB, by rw [hA, hB]; exact ⟨po1, by simp⟩⟩
  have pmBA : poMatch B A := ⟨hgAB.symm, by rw [hA, hB]; exact ⟨po1, by simp⟩⟩
  have pmBC : poMatch B C := ⟨hgBC, by rw [hB, hC]; exact ⟨po2, by simp⟩⟩
  have pmCB : poMatch C B := ⟨hgBC.symm, by rw [hB, hC]; exact ⟨po2, by simp⟩⟩
  have pmAC : ¬ poMatch A C := by
    rintro ⟨-, x, hx⟩
    rw [hA, hC, Finset.mem_inter, Finset.mem_singleton, Finset.mem_singleton] at hx
    exact hne (hx.1 ▸ hx.2)
  have pmCA : ¬ poMatch C A := by
    rintro ⟨-, x, hx⟩
    rw [hA, hC, Finset.mem_inter, Finset.mem_singleton, Finset.mem_singleton] at hx
    exact hne (hx.2 ▸ hx.1)
  have pmABC : poMatch (A.merge_with B) C := by
    refine ⟨hgAB.trans hgBC, ?_⟩
    show ((A.purchase_orders ∪ B.purchase_orders) ∩ C.purchase_orders).Nonempty
    rw [hA, hB, hC]; exact ⟨po2, by simp⟩
  have pmBAC : poMatch (B.merge_with A) C := by
    refine ⟨hgBC, ?_⟩
    show ((B.purchase_orders ∪ A.purchase_orders) ∩ C.purchase_orders).Nonempty
    rw [hA, hB, hC]; exact ⟨po2, by simp⟩
  have pmBCA : poMatch (B.merge_with C) A := by
    refine ⟨hgAB.symm, ?_⟩
    show ((B.purchase_orders ∪ C.purchase_orders) ∩ A.purchase_orders).Nonempty
    rw [hA, hB, hC]; exact ⟨po1, by simp⟩
  have pmCBA : poMatch (C.merge_with B) A := by
    refine ⟨(hgAB.trans hgBC).symm, ?_⟩
    show ((C.purchase_orders ∪ B.purchase_orders) ∩ A.purchase_orders).Nonempty
    rw [hA, hB, hC]; exact ⟨po1, by simp⟩
  have hmABpos : (A.merge_with B).purchase_orders ≠ ∅ := by
    show A.purchase_orders ∪ B.purchase_orders ≠ ∅
    intro hcontra
    exact hApos (Finset.union_eq_empty.mp hcontra).1
  have hmBApos : (B.merge_with A).purchase_orders ≠ ∅ := by
    show B.purchase_orders ∪ A.purchase_orders ≠ ∅
    intro hcontra
    exact hBpos (Finset.union_eq_empty.mp hcontra).1
  have hmBCpos : (B.merge_with C).purchase_orders ≠ ∅ := by
    show B.purchase_orders ∪ C.purchase_orders ≠ ∅
    intro hcontra
    exact hBpos (Finset.union_eq_empty.mp hcontra).1
  have hmCBpos : (C.merge_with B).purchase_orders ≠ ∅ := by
    show C.purchase_orders ∪ B.purchase_orders ≠ ∅
    intro hcontra
    exact hCpos (Finset.union_eq_empty.mp hcontra).1
  -- permutation [A, B, C]
  have r1 : run_merge_iteration [A, B, C] = [(A.merge_with B).merge_with C] := by
    rw [run_merge_iteration,
      run_go_cons_none _ _ _ (fbpo_index_nil A)]
    simp only [List.nil_append]
    rw [run_go_cons_some _ _ _ 0
      (by rw [fbpo_index_of_ne hBpos]; exact poMatchIndex_cons_pos _ pmAB)]
    simp only [List.getD_cons_zero, List.set_cons_zero]
    rw [run_go_cons_some _ _ _ 0
      (by rw [fbpo_index_of_ne hCpos]; exact poMatchIndex_cons_pos _ pmABC)]
    simp only [List.getD_cons_zero, List.set_cons_zero]
    rfl
  -- permutation [A, C, B]: pass one leaves C unmerged, pass two folds it in
  have r2a : run_merge_iteration [A, C, B] = [A.merge_with B, C] := by
    rw [run_merge_iteration,
      run_go_cons_none _ _ _ (fbpo_index_nil A)]
    simp only [List.nil_append]
    rw [run_go_cons_none _ _ _
      (by rw [fbpo_index_of_ne hCpos, poMatchIndex_cons_neg _ pmAC]; rfl)]
    simp only [List.singleton_append]
    rw [run_go_cons_some _ _ _ 0
      (by rw [fbpo_index_of_ne hBpos]; exact poMatchIndex_cons_pos _ pmAB)]
    simp only [List.getD_cons_zero, List.set_cons_zero]
    rfl
  have r2b : run_merge_iteration [A.merge_with B, C] = [(A.merge_with B).merge_with C] := by
    rw [run_merge_iteration,
      run_go_cons_none _ _ _ (fbpo_index_nil _)]
    simp only [List.nil_append]
    rw [run_go_cons_some _ _ _ 0
      (by rw [fbpo_index_of_ne hCpos]; exact poMatchIndex_cons_pos _ pmABC)]
    simp only [List.getD_cons_zero, List.set_cons_zero]
    rfl
  -- permutation [B, A, C]
  have r3 : run_merge_iteration [B, A, C] = [(B.merge_with A).merge_with C] := by
    rw [run_merge_iteration,
      run_go_cons_none _ _ _ (fbpo_index_nil B)]
    simp only [List.nil_append]
    rw [run_go_cons_some _ _ _ 0
      (by rw [fbpo_index_of_ne hApos]; exact poMatchIndex_cons_pos _ pmBA)]
    simp only [List.getD_cons_zero, List.set_cons_zero]
    rw [run_go_cons_some _ _ _ 0
      (by rw [fbpo_index_of_ne hCpos]; exact poMatchIndex_cons_pos _ pmBAC)]
    simp only [List.getD_cons_zero, List.set_cons_zero]
    rfl
  -- permutation [B, C, A]
  have r4 : run_merge_iteration [B, C, A] = [(B.merge_with C).merge_with A] := by
    rw [run_merge_iteration,
      run_go_cons_none _ _ _ (fbpo_index_nil B)]
    simp only [List.nil_append]
    rw [run_go_cons_some _ _ _ 0
      (by rw [fbpo_index_of_ne hCpos]; exact poMatchIndex_cons_pos _ pmBC)]
    simp only [List.getD_cons_zero, List.set_cons_zero]
    rw [run_go_cons_some _ _ _ 0
      (by rw [fbpo_index_of_ne hApos]; exact poMatchIndex_cons_pos _ pmBCA)]
    simp only [List.getD_cons_zero, List.set_cons_zero]
    rfl
  -- permutation [C, A, B]: pass one leaves A unmerged, pass two folds it in
  have r5a : run_merge_iteration [C, A, B] = [C.merge_with B, A] := by
    rw [run_merge_iteration,
      run_go_cons_none _ _ _ (fbpo_index_nil C)]
    simp only [List.nil_append]
    rw [run_go_cons_none _ _ _
      (by rw [fbpo_index_of_ne hApos, poMatchIndex_cons_neg _ pmCA]; rfl)]
    simp only [List.singleton_append]
    rw [run_go_cons_some _ _ _ 0
      (by rw [fbpo_index_of_ne hBpos]; exact poMatchIndex_cons_pos _ pmCB)]
    simp only [List.getD_cons_zero, List.set_cons_zero]
    rfl
  have r5b : run_merge_iteration [C.merge_with B, A] = [(C.merge_with B).merge_with A] := by
    rw [run_merge_iteration,
      run_go_cons_none _ _ _ (fbpo_index_nil _)]
    simp only [List.nil_append]
    rw [run_go_cons_some _ _ _ 0
      (by rw [fbpo_index_of_ne hApos]; exact poMatchIndex_cons_pos _ pmCBA)]
    simp only [List.getD_cons_zero, List.set_cons_zero]
    rfl
  -- permutation [C, B, A]
  have r6 : run_merge_iteration [C, B, A] = [(C.merge_with B).merge_with A] := by
    rw [run_merge_iteration,
      run_go_cons_none _ _ _ (fbpo_index_nil C)]
    simp only [List.nil_append]
    rw [run_go_cons_some _ _ _ 0
      (by rw [fbpo_index_of_ne hBpos]; exact poMatchIndex_cons_pos _ pmCB)]
    simp only [List.getD_cons_zero, List.set_cons_zero]
    rw [run_go_cons_some _ _ _ 0
      (by rw [fbpo_index_of_ne hApos]; exact poMatchIndex_cons_pos _ pmCBA)]
    simp only [List.getD_cons_zero, List.set_cons_zero]
    rfl
  refine ⟨?_, ?_, ?_, ?_, ?_, ?_⟩
  · rw [mbpo_unfold_ne _ (by rw [r1]; simp), r1,
      mbpo_of_stable _ (run_merge_iteration_singleton _)]
  · rw [mbpo_unfold_ne _ (by rw [r2a]; simp), r2a,
      mbpo_unfold_ne _ (by rw [r2b]; simp), r2b,
      mbpo_of_stable _ (run_merge_iteration_singleton _)]
  · rw [mbpo_unfold_ne _ (by rw [r3]; simp), r3,
      mbpo_of_stable _ (run_merge_iteration_singleton _)]
  · rw [mbpo_unfold_ne _ (by rw [r4]; simp), r4,
      mbpo_of_stable _ (run_merge_iteration_singleton _)]
  · rw [mbpo_unfold_ne _ (by rw [r5a]; simp), r5a,
      mbpo_unfold_ne _ (by rw [r5b]; simp), r5b,
      mbpo_of_stable _ (run_merge_iteration_singleton _)]
  · rw [mbpo_unfold_ne _ (by rw [r6]; simp), r6,
      mbpo_of_stable _ (run_merge_iteration_singleton _)]

/-- Witness for C6 at concrete clusters and purchase orders. -/
theorem c6_transitive_merge_chain_witness :
    ((⟨∅, ∅, "g", 1, 0, "0", {"p"}, 0, "", "", .bool true, ∅⟩ : Cluster).group =
      (⟨∅, ∅, "g", 2, 0, "0", {"p", "q"}, 0, "", "", .bool true, ∅⟩ : Cluster).group) ∧
    merge_by_purchase_orders
        [⟨∅, ∅, "g", 1, 0, "0", {"p"}, 0, "", "", .bool true, ∅⟩,
         ⟨∅, ∅, "g", 2, 0, "0", {"p", "q"}, 0, "", "", .bool true, ∅⟩,
         ⟨∅, ∅, "g", 4, 0, "0", {"q"}, 0, "", "", .bool true, ∅⟩] =
      [((⟨∅, ∅, "g", 1, 0, "0", {"p"}, 0, "", "", .bool true, ∅⟩ : Cluster).merge_with
          ⟨∅, ∅, "g", 2, 0, "0", {"p", "q"}, 0, "", "", .bool true, ∅⟩).merge_with
        ⟨∅, ∅, "g", 4, 0, "0", {"q"}, 0, "", "", .bool true, ∅⟩] :=
  ⟨rfl,
   (c6_transitive_merge_chain
      ⟨∅, ∅, "g", 1, 0, "0", {"p"}, 0, "", "", .bool true, ∅⟩
      ⟨∅, ∅, "g", 2, 0, "0", {"p", "q"}, 0, "", "", .bool true, ∅⟩
      ⟨∅, ∅, "g", 4, 0, "0", {"q"}, 0, "", "", .bool true, ∅⟩
      "p" "q" rfl rfl rfl rfl rfl (by decide)).1⟩

/-- C7 (amended): dedupe output contains no empty-group cluster and its
clusters have pairwise disjoint trackings; positionally, whenever two
input clusters share a tracking and the earlier one is kept, the later
one is dropped, and every kept input cluster appears in the output. -/
theorem c7_dedupe_invariants (l : List Cluster) :
    (∀ c ∈ dedupe_clusters l, c.group ≠ "") ∧
    List.Pairwise (fun a b => a.trackings ∩ b.trackings = ∅) (dedupe_clusters l) ∧
    (∀ i j ci cj, i < j → l.get? i = some ci → l.get? j = some cj →
      (ci.trackings ∩ cj.trackings).Nonempty →
      (dedupeKeptFlags l ∅).get? i = some true →
      (dedupeKeptFlags l ∅).get? j = some false) ∧
    (∀ i ci, l.get? i = some ci → (dedupeKeptFlags l ∅).get? i = some true →
      ci ∈ dedupe_clusters l) :=
  ⟨fun c hc => dedupeAux_group_ne l ∅ c hc,
   dedupeAux_pairwise l ∅,
   fun i j ci cj hij hgi hgj hsh hfi =>
     dedupeKeptFlags_overlap l ∅ i j ci cj hij hgi hgj hsh hfi,
   fun i ci hgi hfi => dedupeKeptFlags_mem l ∅ i ci hgi hfi⟩

/-- Witness for C7 at a concrete list: the first cluster is kept, so the
second (sharing tracking "t") is dropped. -/
theorem c7_dedupe_invariants_witness :
    (((⟨∅, {"s", "t"}, "g", 0, 0, "0", ∅, 0, "", "", .bool false, ∅⟩ : Cluster).trackings ∩
        (⟨∅, {"t", "u"}, "g", 0, 0, "0", ∅, 0, "", "", .bool false, ∅⟩ : Cluster).trackings).Nonempty) ∧
    (dedupeKeptFlags
        [⟨∅, {"s", "t"}, "g", 0, 0, "0", ∅, 0, "", "", .bool false, ∅⟩,
         ⟨∅, {"t", "u"}, "g", 0, 0, "0", ∅, 0, "", "", .bool false, ∅⟩,
         ⟨∅, {"u"}, "g", 0, 0, "0", ∅, 0, "", "", .bool false, ∅⟩] ∅).get? 1 = some false :=
  ⟨by decide,
   (c7_dedupe_invariants
      [⟨∅, {"s", "t"}, "g", 0, 0, "0", ∅, 0, "", "", .bool false, ∅⟩,
       ⟨∅, {"t", "u"}, "g", 0, 0, "0", ∅, 0, "", "", .bool false, ∅⟩,
       ⟨∅, {"u"}, "g", 0, 0, "0", ∅, 0, "", "", .bool false, ∅⟩]).2.2.1 0 1
      ⟨∅, {"s", "t"}, "g", 0, 0, "0", ∅, 0, "", "", .bool false, ∅⟩
      ⟨∅, {"t", "u"}, "g", 0, 0, "0", ∅, 0, "", "", .bool false, ∅⟩
      (by decide) rfl rfl (by decide) (by decide)⟩

/-- C7 counterexample to the claim as stated: clusters two and three share
tracking "u", the earlier of the pair (input position 1) is dropped and
the later (position 2) is the one kept. -/
theorem c7_dedupe_earlier_wins_counterexample :
    dedupe_clusters
        [⟨∅, {"s", "t"}, "g", 0, 0, "0", ∅, 0, "", "", .bool false, ∅⟩,
         ⟨∅, {"t", "u"}, "g", 0, 0, "0", ∅, 0, "", "", .bool false, ∅⟩,
         ⟨∅, {"u"}, "g", 0, 0, "0", ∅, 0, "", "", .bool false, ∅⟩] =
      [⟨∅, {"s", "t"}, "g", 0, 0, "0", ∅, 0, "", "", .bool false, ∅⟩,
       ⟨∅, {"u"}, "g", 0, 0, "0", ∅, 0, "", "", .bool false, ∅⟩] ∧
    (((⟨∅, {"t", "u"}, "g", 0, 0, "0", ∅, 0, "", "", .bool false, ∅⟩ : Cluster).trackings ∩
        (⟨∅, {"u"}, "g", 0, 0, "0", ∅, 0, "", "", .bool false, ∅⟩ : Cluster).trackings).Nonempty) ∧
    (⟨∅, {"t", "u"}, "g", 0, 0, "0", ∅, 0, "", "", .bool false, ∅⟩ : Cluster) ∉
      dedupe_clusters
        [⟨∅, {"s", "t"}, "g", 0, 0, "0", ∅, 0, "", "", .bool false, ∅⟩,
         ⟨∅, {"t", "u"}, "g", 0, 0, "0", ∅, 0, "", "", .bool false, ∅⟩,
         ⟨∅, {"u"}, "g", 0, 0, "0", ∅, 0, "", "", .bool false, ∅⟩] ∧
    (⟨∅, {"u"}, "g", 0, 0, "0", ∅, 0, "", "", .bool false, ∅⟩ : Cluster) ∈
      dedupe_clusters
        [⟨∅, {"s", "t"}, "g", 0, 0, "0", ∅, 0, "", "", .bool false, ∅⟩,
         ⟨∅, {"t", "u"}, "g", 0, 0, "0", ∅, 0, "", "", .bool false, ∅⟩,
         ⟨∅, {"u"}, "g", 0, 0, "0", ∅, 0, "", "", .bool false, ∅⟩] := by
  refine ⟨by decide, by decide, by decide, by decide⟩

/-- C8: ingesting one Tracking updates the first cluster with the same
group and overlapping orders in place (count unchanged), and otherwise
appends exactly one fresh cluster carrying the tracking's group and
number. -/
theorem c8_ingest_creates_or_updates (all_clusters : List Cluster) (t : Tracking) :
    update_clusters all_clusters [t] = update_clusters_step all_clusters t ∧
    ((∃ c ∈ all_clusters, tMatch c t) →
      (update_clusters_step all_clusters t).length = all_clusters.length ∧
      ∃ i, ∃ h : i < all_clusters.length,
        find_cluster_index all_clusters t = some i ∧
        find_cluster all_clusters t = some (all_clusters.get ⟨i, h⟩) ∧
        update_clusters_step all_clusters t =
          all_clusters.set i (ingest_into (all_clusters.get ⟨i, h⟩) t)) ∧
    ((¬ ∃ c ∈ all_clusters, tMatch c t) →
      update_clusters_step all_clusters t =
        all_clusters ++ [ingest_into (Cluster.init t.group) t] ∧
      (update_clusters_step all_clusters t).length = all_clusters.length + 1 ∧
      (ingest_into (Cluster.init t.group) t).group = t.group ∧
      t.tracking_number ∈ (ingest_into (Cluster.init t.group) t).trackings) := by
  refine ⟨rfl, ?_, ?_⟩
  · intro h
    obtain ⟨i, hi⟩ := find_cluster_index_isSome all_clusters t h
    obtain ⟨hlt, _, hfc⟩ := find_cluster_index_spec t all_clusters i hi
    have hgd : all_clusters.getD i (Cluster.init t.group) = all_clusters.get ⟨i, hlt⟩ := by
      rw [List.getD_eq_getElem _ _ hlt, List.get_eq_getElem]
    have hstep : update_clusters_step all_clusters t =
        all_clusters.set i (ingest_into (all_clusters.get ⟨i, hlt⟩) t) := by
      simp only [update_clusters_step, hi]
      rw [hgd]
    exact ⟨by rw [hstep]; simp, i, hlt, hi, hfc, hstep⟩
  · intro h
    have hnone : find_cluster_index all_clusters t = none := by
      rw [find_cluster_index_none_iff]
      intro c hc hm
      exact h ⟨c, hc, hm⟩
    have hstep : update_clusters_step all_clusters t =
        all_clusters ++ [ingest_into (Cluster.init t.group) t] := by
      simp only [update_clusters_step, hnone]
    refine ⟨hstep, by rw [hstep]; simp, rfl, ?_⟩
    show t.tracking_number ∈ insert t.tracking_number (∅ : Finset String)
    exact Finset.mem_insert_self _ _

/-- Witness for C8: a tracking hitting an existing cluster, run through
the update branch. -/
theorem c8_ingest_creates_or_updates_witness :
    (∃ c ∈ [(⟨{"o1"}, ∅, "g", 0, 0, "0", ∅, 0, "", "", .bool false, ∅⟩ : Cluster)],
      tMatch c ⟨"tn", "g", {"o1"}, 0, "e", "", "2020", 0, "", "", true, ""⟩) ∧
    ((update_clusters_step
        [⟨{"o1"}, ∅, "g", 0, 0, "0", ∅, 0, "", "", .bool false, ∅⟩]
        ⟨"tn", "g", {"o1"}, 0, "e", "", "2020", 0, "", "", true, ""⟩).length =
      ([(⟨{"o1"}, ∅, "g", 0, 0, "0", ∅, 0, "", "", .bool false, ∅⟩ : Cluster)]).length ∧
    ∃ i, ∃ h : i < ([(⟨{"o1"}, ∅, "g", 0, 0, "0", ∅, 0, "", "", .bool false, ∅⟩ : Cluster)]).length,
      find_cluster_index [⟨{"o1"}, ∅, "g", 0, 0, "0", ∅, 0, "", "", .bool false, ∅⟩]
          ⟨"tn", "g", {"o1"}, 0, "e", "", "2020", 0, "", "", true, ""⟩ = some i ∧
      find_cluster [⟨{"o1"}, ∅, "g", 0, 0, "0", ∅, 0, "", "", .bool false, ∅⟩]
          ⟨"tn", "g", {"o1"}, 0, "e", "", "2020", 0, "", "", true, ""⟩ =
        some (([(⟨{"o1"}, ∅, "g", 0, 0, "0", ∅, 0, "", "", .bool false, ∅⟩ : Cluster)]).get ⟨i, h⟩) ∧
      update_clusters_step
          [⟨{"o1"}, ∅, "g", 0, 0, "0", ∅, 0, "", "", .bool false, ∅⟩]
          ⟨"tn", "g", {"o1"}, 0, "e", "", "2020", 0, "", "", true, ""⟩ =
        ([(⟨{"o1"}, ∅, "g", 0, 0, "0", ∅, 0, "", "", .bool false, ∅⟩ : Cluster)]).set i
          (ingest_into (([(⟨{"o1"}, ∅, "g", 0, 0, "0", ∅, 0, "", "", .bool false, ∅⟩ : Cluster)]).get ⟨i, h⟩)
            ⟨"tn", "g", {"o1"}, 0, "e", "", "2020", 0, "", "", true, ""⟩)) :=
  ⟨by decide,
   (c8_ingest_creates_or_updates
      [⟨{"o1"}, ∅, "g", 0, 0, "0", ∅, 0, "", "", .bool false, ∅⟩]
      ⟨"tn", "g", {"o1"}, 0, "e", "", "2020", 0, "", "", true, ""⟩).2.1 (by decide)⟩

/-- C9: `merge_by_purchase_orders` is idempotent — applying it to its own
output returns the same list. -/
theorem c9_merge_idempotent (l : List Cluster) :
    merge_by_purchase_orders (merge_by_purchase_orders l) = merge_by_purchase_orders l :=
  mbpo_of_stable _ (run_merge_iteration_mbpo l)

/-! ### Claim theorems: store, dispatch, retry, aliasing (C1, C2, C5, C10) -/

/-- C1 (amended): the Cluster Store load re-applies `dedupe_clusters` only
on the local-file fallback; a truthy (nonempty) remote-mirror list is
returned exactly as stored. -/
theorem c1_load_dedupes_only_local (dl : Option (List Cluster)) (l cs : List Cluster) :
    (l ≠ [] → get_existing_clusters (some l) dl = l) ∧
    get_existing_clusters none (some cs) = dedupe_clusters cs ∧
    get_existing_clusters (some []) (some cs) = dedupe_clusters cs ∧
    get_existing_clusters none none = [] ∧
    get_existing_clusters (some []) none = [] := by
  refine ⟨?_, rfl, rfl, rfl, rfl⟩
  intro h
  rw [get_existing_clusters]
  rw [if_neg]
  simpa using h

/-- Witness for C1 with a nonempty drive list. -/
theorem c1_load_dedupes_only_local_witness :
    ([Cluster.init "g"] ≠ []) ∧
    get_existing_clusters (some [Cluster.init "g"]) none = [Cluster.init "g"] :=
  ⟨by decide, (c1_load_dedupes_only_local none [Cluster.init "g"] []).1 (by decide)⟩

/-- C1 counterexample: a drive-stored list holding the same cluster twice
is returned with the duplicate, though dedupe would remove it. -/
theorem c1_load_dedupe_counterexample :
    get_existing_clusters
        (some [⟨∅, {"t1"}, "g", 0, 0, "0", ∅, 0, "", "", .bool false, ∅⟩,
               ⟨∅, {"t1"}, "g", 0, 0, "0", ∅, 0, "", "", .bool false, ∅⟩]) none =
      [⟨∅, {"t1"}, "g", 0, 0, "0", ∅, 0, "", "", .bool false, ∅⟩,
       ⟨∅, {"t1"}, "g", 0, 0, "0", ∅, 0, "", "", .bool false, ∅⟩] ∧
    dedupe_clusters
        [⟨∅, {"t1"}, "g", 0, 0, "0", ∅, 0, "", "", .bool false, ∅⟩,
         ⟨∅, {"t1"}, "g", 0, 0, "0", ∅, 0, "", "", .bool false, ∅⟩] =
      [⟨∅, {"t1"}, "g", 0, 0, "0", ∅, 0, "", "", .bool false, ∅⟩] ∧
    ([⟨∅, {"t1"}, "g", 0, 0, "0", ∅, 0, "", "", .bool false, ∅⟩,
      ⟨∅, {"t1"}, "g", 0, 0, "0", ∅, 0, "", "", .bool false, ∅⟩] : List Cluster) ≠
      [⟨∅, {"t1"}, "g", 0, 0, "0", ∅, 0, "", "", .bool false, ∅⟩] := by
  refine ⟨by decide, by decide, by decide⟩

theorem retryLoop_succ {α : Type} (attempt : Nat → Except String α)
    (n used : Nat) (last : Option String) :
    retryLoop attempt (Nat.succ n) used last =
      match attempt used with
      | .ok a => (.ok a, used + 1)
      | .error e => retryLoop attempt n (used + 1) (some e) := rfl

theorem retryLoop_all_error {α : Type} (attempt : Nat → Except String α) (e : String)
    (hatt : ∀ i, attempt i = .error e) :
    ∀ n start last, 0 < n →
      retryLoop attempt n start last =
        (.error ("Exceeded retry limit", some e), start + n) := by
  intro n
  induction n with
  | zero => intro start last h; omega
  | succ n ih =>
    intro start last _
    rw [retryLoop_succ]
    simp only [hatt start]
    cases Nat.eq_zero_or_pos n with
    | inl h0 => subst h0; rfl
    | inr hpos =>
      rw [ih (start + 1) (some e) hpos]
      congr 1
      omega

/-- C2 (amended): a cost fetch for a group outside the dispatch set
returns empty maps with no error at all, while an upload for it raises
"Unknown group" inside the retry loop, which retries all 10 attempts and
then fails with "Exceeded retry limit" chained to that error. -/
theorem c2_unknown_group_dispatch (melul_portal_groups : List String)
    (adapter : String → Except String (TrackingsCostMap × PoCostMap))
    (uploader : Nat → String → Except String Unit) (group : String)
    (h1 : group ∉ melul_portal_groups) (h2 : group ≠ "bfmr") (h3 : group ≠ "usa")
    (h4 : group ≠ "yrcw") (h5 : group ≠ "oaks") :
    get_new_tracking_pos_costs_maps melul_portal_groups adapter group = .ok ([], []) ∧
    upload_to_group melul_portal_groups uploader group =
      (.error ("Exceeded retry limit", some ("Unknown group: " ++ group)), 10) := by
  constructor
  · rw [get_new_tracking_pos_costs_maps, if_neg h2, if_neg h1, if_neg h3, if_neg h4]
  · have hatt : ∀ i, upload_attempt melul_portal_groups (uploader i) group =
        .error ("Unknown group: " ++ group) := by
      intro i
      rw [upload_attempt, if_neg h1, if_neg h3, if_neg h4, if_neg h2, if_neg h5]
    rw [upload_to_group]
    rw [retryLoop_all_error _ _ hatt MAX_UPLOAD_ATTEMPTS 0 none (by decide)]
    rfl

/-- Witness for C2 at the concrete unknown group "foo". -/
theorem c2_unknown_group_dispatch_witness :
    get_new_tracking_pos_costs_maps [] (fun _ => .error "unused") "foo" = .ok ([], []) ∧
    upload_to_group [] (fun _ _ => .error "unused") "foo" =
      (.error ("Exceeded retry limit", some ("Unknown group: " ++ "foo")), 10) :=
  c2_unknown_group_dispatch [] (fun _ => .error "unused") (fun _ _ => .error "unused")
    "foo" (by decide) (by decide) (by decide) (by decide) (by decide)

/-- C2 counterexample to the claim as stated: the cost fetch for unknown
group "foo" succeeds with empty maps instead of failing, and the upload
only fails after all 10 retry attempts rather than immediately. -/
theorem c2_unknown_group_counterexample :
    get_new_tracking_pos_costs_maps [] (fun _ => .error "adapter") "foo" = .ok ([], []) ∧
    (upload_to_group [] (fun _ _ => .error "adapter") "foo").2 = 10 := by
  exact ⟨rfl, rfl⟩

/-- C5: the retrying fetch invokes the adapter exactly 5 times when every
attempt raises, failing with a terminal error carrying the last raised
exception; a first success at attempt k returns that result after k+1
invocations. -/
theorem c5_retry_exhaustion (fetch : Nat → Except String (TrackingsCostMap × PoCostMap)) :
    ((∀ i, i < 5 → ∃ s, fetch i = .error s) →
      ∃ s4, fetch 4 = .error s4 ∧
        get_new_tracking_pos_costs_maps_with_retry fetch =
          (.error ("Exceeded retry limit", some s4), 5)) ∧
    (∀ k r, k < 5 → (∀ i, i < k → ∃ s, fetch i = .error s) → fetch k = .ok r →
      get_new_tracking_pos_costs_maps_with_retry fetch = (.ok r, k + 1)) := by
  constructor
  · intro h
    obtain ⟨s0, h0⟩ := h 0 (by omega)
    obtain ⟨s1, h1⟩ := h 1 (by omega)
    obtain ⟨s2, h2⟩ := h 2 (by omega)
    obtain ⟨s3, h3⟩ := h 3 (by omega)
    obtain ⟨s4, h4⟩ := h 4 (by omega)
    refine ⟨s4, h4, ?_⟩
    rw [get_new_tracking_pos_costs_maps_with_retry]
    show retryLoop fetch (Nat.succ 4) 0 none = _
    rw [retryLoop_succ]; simp only [h0]
    show retryLoop fetch (Nat.succ 3) 1 (some s0) = _
    rw [retryLoop_succ]; simp only [h1]
    show retryLoop fetch (Nat.succ 2) 2 (some s1) = _
    rw [retryLoop_succ]; simp only [h2]
    show retryLoop fetch (Nat.succ 1) 3 (some s2) = _
    rw [retryLoop_succ]; simp only [h3]
    show retryLoop fetch (Nat.succ 0) 4 (some s3) = _
    rw [retryLoop_succ]; simp only [h4]
    rfl
  · intro k r hk hpre hok
    rw [get_new_tracking_pos_costs_maps_with_retry]
    interval_cases k
    · show retryLoop fetch (Nat.succ 4) 0 none = _
      rw [retryLoop_succ]; simp only [hok]
    · obtain ⟨s0, h0⟩ := hpre 0 (by omega)
      show retryLoop fetch (Nat.succ 4) 0 none = _
      rw [retryLoop_succ]; simp only [h0]
      show retryLoop fetch (Nat.succ 3) 1 (some s0) = _
      rw [retryLoop_succ]; simp only [hok]
    · obtain ⟨s0, h0⟩ := hpre 0 (by omega)
      obtain ⟨s1, h1⟩ := hpre 1 (by omega)
      show retryLoop fetch (Nat.succ 4) 0 none = _
      rw [retryLoop_succ]; simp only [h0]
      show retryLoop fetch (Nat.succ 3) 1 (some s0) = _
      rw [retryLoop_succ]; simp only [h1]
      show retryLoop fetch (Nat.succ 2) 2 (some s1) = _
      rw [retryLoop_succ]; simp only [hok]
    · obtain ⟨s0, h0⟩ := hpre 0 (by omega)
      obtain ⟨s1, h1⟩ := hpre 1 (by omega)
      obtain ⟨s2, h2⟩ := hpre 2 (by omega)
      show retryLoop fetch (Nat.succ 4) 0 none = _
      rw [retryLoop_succ]; simp only [h0]
      show retryLoop fetch (Nat.succ 3) 1 (some s0) = _
      rw [retryLoop_succ]; simp only [h1]
      show retryLoop fetch (Nat.succ 2) 2 (some s1) = _
      rw [retryLoop_succ]; simp only [h2]
      show retryLoop fetch (Nat.succ 1) 3 (some s2) = _
      rw [retryLoop_succ]; simp only [hok]
    · obtain ⟨s0, h0⟩ := hpre 0 (by omega)
      obtain ⟨s1, h1⟩ := hpre 1 (by omega)
      obtain ⟨s2, h2⟩ := hpre 2 (by omega)
      obtain ⟨s3, h3⟩ := hpre 3 (by omega)
      show retryLoop fetch (Nat.succ 4) 0 none = _
      rw [retryLoop_succ]; simp only [h0]
      show retryLoop fetch (Nat.succ 3) 1 (some s0) = _
      rw [retryLoop_succ]; simp only [h1]
      show retryLoop fetch (Nat.succ 2) 2 (some s1) = _
      rw [retryLoop_succ]; simp only [h2]
      show retryLoop fetch (Nat.succ 1) 3 (some s2) = _
      rw [retryLoop_succ]; simp only [h3]
      show retryLoop fetch (Nat.succ 0) 4 (some s3) = _
      rw [retryLoop_succ]; simp only [hok]

/-- Witness for C5: an always-failing fetch exhausts all 5 attempts; a
fetch succeeding on its first attempt stops after 1. -/
theorem c5_retry_exhaustion_witness :
    get_new_tracking_pos_costs_maps_with_retry
        (fun _ => (.error "boom" : Except String (TrackingsCostMap × PoCostMap))) =
      (.error ("Exceeded retry limit", some "boom"), 5) ∧
    get_new_tracking_pos_costs_maps_with_retry
        (fun _ => (.ok ([], []) : Except String (TrackingsCostMap × PoCostMap))) =
      (.ok ([], []), 1) := by
  constructor
  · obtain ⟨s4, hs4, hres⟩ :=
      (c5_retry_exhaustion (fun _ => .error "boom")).1 (fun i _ => ⟨"boom", rfl⟩)
    have hs4' : (Except.error "boom" : Except String (TrackingsCostMap × PoCostMap)) =
        .error s4 := hs4
    injection hs4' with heq
    subst heq
    exact hres
  · exact (c5_retry_exhaustion (fun _ => .ok ([], []))).2 0 ([], []) (by omega)
      (fun i hi => absurd hi (Nat.not_lt_zero i)) rfl

/-- C10: every `Cluster(group)` holds the one shared default
`non_reimbursed_trackings` set, so merging `other` into one such cluster
makes `other`'s non-reimbursed trackings visible through every other
default-constructed cluster. -/
theorem c10_shared_default_set (g1 g2 : String) (other : ClusterH) (st : DefaultStore) :
    (ClusterH.init g1).non_reimbursed_trackings = NRTRef.sharedDefault ∧
    (ClusterH.init g2).non_reimbursed_trackings = NRTRef.sharedDefault ∧
    nrtValue (ClusterH.merge_with st (ClusterH.init g1) other).1
        (ClusterH.init g2).non_reimbursed_trackings =
      st.nrtDefault ∪ nrtValue st other.non_reimbursed_trackings :=
  ⟨rfl, rfl, rfl⟩

/-! ### Row-import lemmas and claim theorems (C3, C4) -/

theorem headerIndex_eq_none_of_not_mem :
    ∀ (header : List String) (name : String), name ∉ header → headerIndex header name = none := by
  intro header name
  induction header with
  | nil => intro _; rfl
  | cons a rest ih =>
    intro h
    rw [headerIndex,
      if_neg (fun heq => h (by rw [← heq]; exact List.mem_cons_self a rest)),
      ih (fun hm => h (List.mem_cons_of_mem _ hm))]
    rfl

theorem getRequired_of_not_mem {header : List String} {name : String} (row : List String)
    (h : name ∉ header) :
    getRequired header row name = .error ("ValueError: " ++ name ++ " is not in list") := by
  rw [getRequired, headerIndex_eq_none_of_not_mem header name h]

/-- Shape of a cluster row import whose only column is Amount Billed: the
cell goes straight to `float()` with no stripping. -/
theorem clusters_from_row_billed_shape (s : String) :
    Clusters.from_row ["Amount Billed"] [s] =
      (pyFloatE s).bind
        (fun ec => .ok ⟨∅, ∅, "", ec, 0, "0", ∅, 0, "", "", .bool false, ∅⟩) := rfl

/-- Shape of a cluster row import whose only column is Manual Cost
Adjustment: the cell goes to `float()` (guarded only by emptiness), with
no stripping. -/
theorem clusters_from_row_adjustment_shape (s : String) :
    Clusters.from_row ["Manual Cost Adjustment"] [s] =
      (pyFloatGuard s).bind
        (fun adj => .ok ⟨∅, ∅, "", 0, 0, "0", ∅, adj, "", "", .bool false, ∅⟩) := rfl

/-- Shape of a tracking row import with the mandatory columns plus Price:
the Price cell is comma/dollar-stripped before the guarded `float()`. -/
theorem tracking_from_row_price_shape (tn os em sd g s : String) :
    Tracking.from_row
        ["Tracking Number", "Order Number(s)", "To Email", "Ship Date", "Group", "Price"]
        [tn, os, em, sd, g, s] =
      (pyFloatGuard (pyStripMoney s)).bind
        (fun price =>
          .ok ⟨tn, g, ((os.splitOn ",").map String.trim).toFinset, price, em, "", sd, 0,
            "", "", true, ""⟩) := rfl

/-- Shape of a tracking row import with the mandatory columns plus Amount
Reimbursed: that cell reaches the guarded `float()` unstripped. -/
theorem tracking_from_row_reimbursed_shape (tn os em sd g s : String) :
    Tracking.from_row
        ["Tracking Number", "Order Number(s)", "To Email", "Ship Date", "Group",
          "Amount Reimbursed"]
        [tn, os, em, sd, g, s] =
      (pyFloatGuard s).bind
        (fun tc =>
          .ok ⟨tn, g, ((os.splitOn ",").map String.trim).toFinset, 0, em, "", sd, tc,
            "", "", true, ""⟩) := rfl

/-- C3 (amended): only the Price column of Tracking.from_row strips
thousands separators and dollar signs before `float()`; the monetary
columns of Cluster.from_row (Amount Billed, Manual Cost Adjustment shown)
and Tracking.from_row's Amount Reimbursed convert the raw cell, so a
separator or currency symbol there is itself a malformed numeric string;
in every case a malformed cell fails the whole row's import. -/
theorem c3_monetary_parsing (s : String) (q : Rat) (tn os em sd g : String) :
    (parsePythonFloat s = some q →
      Clusters.from_row ["Amount Billed"] [s] =
        .ok ⟨∅, ∅, "", q, 0, "0", ∅, 0, "", "", .bool false, ∅⟩) ∧
    (parsePythonFloat s = none →
      Clusters.from_row ["Amount Billed"] [s] =
        .error ("ValueError: could not convert string to float: " ++ s)) ∧
    (s ≠ "" → parsePythonFloat s = none →
      Clusters.from_row ["Manual Cost Adjustment"] [s] =
        .error ("ValueError: could not convert string to float: " ++ s)) ∧
    (parsePythonFloat (pyStripMoney s) = some q →
      Tracking.from_row
          ["Tracking Number", "Order Number(s)", "To Email", "Ship Date", "Group", "Price"]
          [tn, os, em, sd, g, s] =
        .ok ⟨tn, g, ((os.splitOn ",").map String.trim).toFinset, q, em, "", sd, 0,
          "", "", true, ""⟩) ∧
    (pyStripMoney s ≠ "" → parsePythonFloat (pyStripMoney s) = none →
      Tracking.from_row
          ["Tracking Number", "Order Number(s)", "To Email", "Ship Date", "Group", "Price"]
          [tn, os, em, sd, g, s] =
        .error ("ValueError: could not convert string to float: " ++ pyStripMoney s)) ∧
    (s ≠ "" → parsePythonFloat s = none →
      Tracking.from_row
          ["Tracking Number", "Order Number(s)", "To Email", "Ship Date", "Group",
            "Amount Reimbursed"]
          [tn, os, em, sd, g, s] =
        .error ("ValueError: could not convert string to float: " ++ s)) := by
  refine ⟨?_, ?_, ?_, ?_, ?_, ?_⟩
  · intro hq
    have hps : pyFloatE s = .ok q := by rw [pyFloatE, hq]
    rw [clusters_from_row_billed_shape, hps]
    rfl
  · intro hn
    have hps : pyFloatE s = .error ("ValueError: could not convert string to float: " ++ s) := by
      rw [pyFloatE, hn]
    rw [clusters_from_row_billed_shape, hps]
    rfl
  · intro hne hn
    have hps : pyFloatGuard s =
        .error ("ValueError: could not convert string to float: " ++ s) := by
      rw [pyFloatGuard, if_neg hne, pyFloatE, hn]
    rw [clusters_from_row_adjustment_shape, hps]
    rfl
  · intro hq
    have hne : pyStripMoney s ≠ "" := by
      intro h0
      rw [h0] at hq
      exact Option.noConfusion hq
    have hps : pyFloatGuard (pyStripMoney s) = .ok q := by
      rw [pyFloatGuard, if_neg hne, pyFloatE, hq]
    rw [tracking_from_row_price_shape, hps]
    rfl
  · intro hne hn
    have hps : pyFloatGuard (pyStripMoney s) =
        .error ("ValueError: could not convert string to float: " ++ pyStripMoney s) := by
      rw [pyFloatGuard, if_neg hne, pyFloatE, hn]
    rw [tracking_from_row_price_shape, hps]
    rfl
  · intro hne hn
    have hps : pyFloatGuard s =
        .error ("ValueError: could not convert string to float: " ++ s) := by
      rw [pyFloatGuard, if_neg hne, pyFloatE, hn]
    rw [tracking_from_row_reimbursed_shape, hps]
    rfl

/-- Witness for C3 at the concrete cell "$1,000": the unstripped Amount
Billed import fails while the stripped Price import parses it as 1000. -/
theorem c3_monetary_parsing_witness :
    Clusters.from_row ["Amount Billed"] ["$1,000"] =
      .error ("ValueError: could not convert string to float: " ++ "$1,000") ∧
    Tracking.from_row
        ["Tracking Number", "Order Number(s)", "To Email", "Ship Date", "Group", "Price"]
        ["t1", "o1", "e", "d", "g", "$1,000"] =
      .ok ⟨"t1", "g", (("o1".splitOn ",").map String.trim).toFinset, 1000, "e", "", "d", 0,
        "", "", true, ""⟩ :=
  ⟨(c3_monetary_parsing "$1,000" 1000 "t1" "o1" "e" "d" "g").2.1 rfl,
   (c3_monetary_parsing "$1,000" 1000 "t1" "o1" "e" "d" "g").2.2.2.1 rfl⟩

/-- C3 counterexample: the Amount Billed cell "$1,000" fails the cluster
row import outright, though the same text parses as 1000 once stripped
the way the claim describes. -/
theorem c3_monetary_parsing_counterexample :
    Clusters.from_row ["Amount Billed"] ["$1,000"] =
      .error "ValueError: could not convert string to float: $1,000" ∧
    parsePythonFloat (pyStripMoney "$1,000") = some 1000 := ⟨rfl, rfl⟩

/-- C4 (amended): Cluster.from_row tolerates every absent column (all
fields default when the header is empty, whatever the row holds);
Tracking.from_row instead requires the Tracking Number (and further
mandatory) columns, failing whenever Tracking Number is absent, while its
optional columns (Price, Est. Delivery Date, Amount Reimbursed, Items,
Merchant) default independently. -/
theorem c4_optional_columns (header row : List String) (tn os em sd g : String) :
    Clusters.from_row [] row =
      .ok ⟨∅, ∅, "", 0, 0, "0", ∅, 0, "", "", .bool false, ∅⟩ ∧
    ("Tracking Number" ∉ header → ∃ m, Tracking.from_row header row = .error m) ∧
    Tracking.from_row ["Tracking Number", "Order Number(s)", "To Email", "Ship Date", "Group"]
        [tn, os, em, sd, g] =
      .ok ⟨tn, g, ((os.splitOn ",").map String.trim).toFinset, 0, em, "", sd, 0, "", "",
        true, ""⟩ := by
  refine ⟨rfl, ?_, rfl⟩
  intro h
  refine ⟨"ValueError: " ++ "Tracking Number" ++ " is not in list", ?_⟩
  rw [Tracking.from_row, getRequired_of_not_mem row h]
  rfl

/-- Witness for C4 with the Tracking Number column absent. -/
theorem c4_optional_columns_witness :
    ("Tracking Number" ∉ ["Foo"]) ∧
    (∃ m, Tracking.from_row ["Foo"] ["x"] = .error m) :=
  ⟨by decide, (c4_optional_columns ["Foo"] ["x"] "" "" "" "" "").2.1 (by decide)⟩

/-- C4 counterexample: with every column absent, Tracking.from_row raises
on the missing Tracking Number column instead of succeeding with
defaults. -/
theorem c4_optional_columns_counterexample :
    Tracking.from_row [] [] = .error "ValueError: Tracking Number is not in list" := rfl
